import Mathlib

/-!
Shallow embedding of the Owl 1.0 question-answering pipeline (src/app.py).

Python dictionaries returned by the external similarity endpoint and the
attribute-bearing objects returned by the generation SDK are modelled with
`Option`-valued fields: `none` stands for an absent key/attribute (or a JSON
null), `some s` for a present string.  Python truthiness of strings
(`a or b`) is modelled by `pyOr`.  The outbound HTTP transport and the
generation call are modelled by oracles passed in as functions, so every
possible sequence of transport outcomes can be quantified over.
-/

namespace Owl

/-- One entry of the similarity endpoint's `results` array
(a JSON object whose keys may all be absent). -/
structure RetrievedDocument where
  title : Option String := none
  source : Option String := none
  page_label : Option String := none
  URL : Option String := none
  url : Option String := none
  document : Option String := none
  combined_details : Option String := none
deriving DecidableEq

/-- Python `a or b` for `a` an optional string (`dict.get` result) and `b` a
string: the first operand when it is present and non-empty (truthy),
otherwise the second. -/
def pyOr (a : Option String) (b : String) : String :=
  match a with
  | some s => if s = "" then b else s
  | none => b

/-- `d.get("combined_details") or d.get("document", "")` from
`context_details` (src/app.py line 156): the per-document text used for
context assembly. -/
def bestText (d : RetrievedDocument) : String :=
  pyOr d.combined_details (d.document.getD "")

/-- Python slice `s[:n]`: the first `n` characters of `s` (all of `s` when
it is shorter). -/
def takeChars (s : String) (n : Nat) : String :=
  String.mk (s.data.take n)

/-- `trim_context` (src/app.py lines 83-88). -/
def trim_context (text : String) (limit_chars : Nat) : String :=
  if text = "" then ""
  else if text.length ≤ limit_chars then text
  else takeChars text limit_chars ++ "\n\n[...context truncated to fit model limits...]"

/-- The fixed truncation notice appended by `trim_context`. -/
def truncationNotice : String := "\n\n[...context truncated to fit model limits...]"

/-- Context assembly (src/app.py lines 156-157): join each document's best
available text with a blank line, then trim to the character budget. -/
def assembleContext (docs : List RetrievedDocument) (limitChars : Nat) : String :=
  trim_context (String.intercalate "\n\n" (docs.map bestText)) limitChars

/-- Python substring test `sub in s`, over the character sequences of the
two strings. -/
def strContainsB (s sub : String) : Bool :=
  (List.range (s.data.length + 1)).any fun i =>
    List.take sub.data.length (List.drop i s.data) == sub.data

/-- Whether a string contains the truncation notice as a substring. -/
def containsTruncationNotice (s : String) : Bool :=
  strContainsB s truncationNotice

/-- ASCII-faithful model of Python `str.lower()`. -/
def lowerStr (s : String) : String :=
  String.mk (s.data.map Char.toLower)

/-- Model of Python `str.strip()`: drop whitespace characters from both
ends. -/
def stripStr (s : String) : String :=
  String.mk (((s.data.dropWhile Char.isWhitespace).reverse.dropWhile Char.isWhitespace).reverse)

/-- `SYSTEM_PROMPT` (src/app.py lines 66-71). -/
def SYSTEM_PROMPT : String :=
  "You are a Q&A assistant dedicated to providing accurate, up-to-date information " ++
  "from ReliefWeb, a humanitarian platform managed by OCHA. Use the provided context documents " ++
  "to answer the user’s question. If you cannot find the answer or are not sure, say that you do not know. " ++
  "Keep your answer to ten sentences maximum, be clear and concise. Always end by inviting the user to ask more!"

/-- `build_prompt` (src/app.py lines 90-91). -/
def build_prompt (system_prompt context question : String) : String :=
  system_prompt ++ "\n\n### Context:\n" ++ context ++ "\n\n### User Question:\n" ++ question

/-! Similarity client (src/app.py lines 93-127). -/

/-- A response object attached to a `requests` HTTP error: its status code
and the rendering of its body used in the error message (`r.response.json()`
when it parses, `r.response.text` otherwise). -/
structure HTTPResponse where
  status : Nat
  body : String
deriving DecidableEq

/-- The `requests.exceptions.RequestException` values distinguished by
`_requests_error_msg`, each constructor standing for the most specific
exception class an exception instance belongs to; `strRepr` models Python
`str(e)` where the code interpolates it. -/
inductive RequestException where
  | httpError (response : Option HTTPResponse) (strRepr : String)
  | connectTimeout
  | readTimeout
  | connectionError
  | other (strRepr : String)
deriving DecidableEq

/-- `_requests_error_msg` (src/app.py lines 93-111). -/
def requests_error_msg : RequestException → String
  | .httpError (some r) _ =>
    if r.status = 429 then
      "Rate limit / quota exceeded (HTTP 429). Details: " ++ r.body
    else if r.status ≥ 500 then
      "Server error (HTTP " ++ toString r.status ++ "). Details: " ++ r.body
    else
      "HTTP " ++ toString r.status ++ " error. Details: " ++ r.body
  | .httpError none s => "Request error: " ++ s
  | .connectTimeout => "Connection timed out contacting the Similarity API."
  | .readTimeout => "Similarity API took too long to respond."
  | .connectionError => "Network error reaching the Similarity API."
  | .other s => "Request error: " ++ s

/-- The spec's retrieval-error taxonomy. -/
inductive RetrievalCategory where
  | rateLimited
  | serverError
  | clientError
  | timeout
  | networkUnreachable
  | unknown
deriving DecidableEq

/-- The category each handled exception is reported under, following the
branch structure of `_requests_error_msg`. -/
def errorCategory : RequestException → RetrievalCategory
  | .httpError (some r) _ =>
    if r.status = 429 then .rateLimited
    else if r.status ≥ 500 then .serverError
    else .clientError
  | .httpError none _ => .unknown
  | .connectTimeout => .timeout
  | .readTimeout => .timeout
  | .connectionError => .networkUnreachable
  | .other _ => .unknown

/-- The parsed JSON body of a successful similarity response; the
`results` key may be absent. -/
structure SimilarityResponse where
  results : Option (List RetrievedDocument) := none
deriving DecidableEq

/-- Outcome of one `requests.post` attempt inside `fetch_similar`: either a
2xx response whose body parsed (after `raise_for_status`), or a raised
`RequestException`. -/
inductive AttemptOutcome where
  | success (json : SimilarityResponse)
  | failure (e : RequestException)
deriving DecidableEq

/-- The JSON payload `{"text": text, "k": int(top_k)}` sent on each attempt. -/
structure Payload where
  text : String
  k : Nat
deriving DecidableEq

/-- What `fetch_similar` returns: `{"ok": True, "json": ...}` or
`{"ok": False, "error": ...}`. -/
inductive FetchResult where
  | ok (json : SimilarityResponse)
  | err (error : String)
deriving DecidableEq

/-- Observable behaviour of one `fetch_similar` call: its returned value,
the `time.sleep` pauses performed (in order, in time units), and the number
of HTTP attempts issued. -/
structure FetchOut where
  result : FetchResult
  sleeps : List ℚ
  attemptsMade : Nat
deriving DecidableEq

/-- `backoffs = [0.5, 1.0, 2.0]` (src/app.py line 116). -/
def backoffs : List ℚ := [0.5, 1.0, 2.0]

/-- The `for i, pause in enumerate(backoffs)` loop of `fetch_similar`
(src/app.py lines 117-126): `attempt i` is the outcome of the
`requests.post` on iteration `i`; a failure sleeps the current pause and
retries while later backoff entries remain (`i < len(backoffs) - 1`),
otherwise returns the categorized error message. -/
def fetchLoop (attempt : Nat → AttemptOutcome) : Nat → List ℚ → FetchOut
  | _, [] => ⟨.err "Unknown error", [], 0⟩
  | i, pause :: rest =>
    match attempt i with
    | .success j => ⟨.ok j, [], 1⟩
    | .failure e =>
      match rest with
      | [] => ⟨.err (requests_error_msg e), [], 1⟩
      | r :: rs =>
        let o := fetchLoop attempt (i + 1) (r :: rs)
        ⟨o.result, pause :: o.sleeps, o.attemptsMade + 1⟩

/-- `fetch_similar` (src/app.py lines 113-127), with the HTTP transport
abstracted as an oracle mapping (url, payload, attempt index) to that
attempt's outcome. -/
def fetch_similar (transport : String → Payload → Nat → AttemptOutcome)
    (api_url text : String) (top_k : Nat) : FetchOut :=
  fetchLoop (transport api_url ⟨text, top_k⟩) 0 backoffs

/-! Answer generator (src/app.py lines 163-192). -/

/-- A part of a generation candidate's content; `text` may be absent. -/
structure Part where
  text : Option String := none
deriving DecidableEq

/-- A candidate's content object; `parts` may be absent. -/
structure Content where
  parts : Option (List Part) := none
deriving DecidableEq

/-- A generation candidate; `content` may be absent. -/
structure Candidate where
  content : Option Content := none
deriving DecidableEq

/-- A generation-model response object; `text` and `candidates` may be
absent. -/
structure GenResponse where
  text : Option String := none
  candidates : Option (List Candidate) := none
deriving DecidableEq

/-- The body of the inner `for p in ...` loop (src/app.py lines 173-176):
`txt = getattr(p, "text", ""); if txt: parts.append(txt)`. -/
def partStep (acc2 : List String) (p : Part) : List String :=
  let txt := p.text.getD ""
  if txt = "" then acc2 else acc2 ++ [txt]

/-- The body of the outer `for c in ...` loop (src/app.py lines 171-176):
fetch the candidate's content and walk its parts. -/
def candStep (acc : List String) (c : Candidate) : List String :=
  match c.content with
  | none => acc
  | some content => (content.parts.getD []).foldl partStep acc

/-- The `parts` accumulation loop (src/app.py lines 170-176): walk the
candidates in order, then each candidate's parts in order, appending every
truthy `p.text`. -/
def collectParts (cands : List Candidate) : List String :=
  cands.foldl candStep []

/-- The parts of one candidate as iterated by the source loop:
`getattr(content, "parts", []) or []` with `content = getattr(c, "content", None)`. -/
def candidateParts (c : Candidate) : List Part :=
  match c.content with
  | none => []
  | some content => content.parts.getD []

/-- The text fragment one part contributes: its text when present and
non-empty, nothing otherwise. -/
def partFragment (p : Part) : Option String :=
  if p.text.getD "" = "" then none else some (p.text.getD "")

/-- Declarative form of the collected fragments: the non-empty texts of all
candidates' parts, in encounter order. -/
def fragmentsOf (resp : GenResponse) : List String :=
  (((resp.candidates.getD []).map candidateParts).flatten).filterMap partFragment

/-- The sentinel answer used when no text can be extracted. -/
def noAnswerSentinel : String := "⚠️ No response received from Gemini."

/-- The response-normalization logic computing `final_answer`
(src/app.py lines 167-177): `(getattr(resp, "text", "") or "").strip()`,
else the stripped newline-join of the collected parts, else the sentinel. -/
def final_answer (resp : GenResponse) : String :=
  if stripStr (resp.text.getD "") = "" then
    if stripStr (String.intercalate "\n" (collectParts (resp.candidates.getD []))) = "" then
      noAnswerSentinel
    else stripStr (String.intercalate "\n" (collectParts (resp.candidates.getD [])))
  else stripStr (resp.text.getD "")

/-- The spec's generation-error taxonomy. -/
inductive GenErrorCategory where
  | rateLimited
  | generationFailed
deriving DecidableEq

/-- The classification in the `except Exception` handler (src/app.py lines
186-192): quota/rate-limit when the message contains "429" or, lowercased,
contains "quota". -/
def classifyGenFailure (msg : String) : GenErrorCategory :=
  if strContainsB msg "429" || strContainsB (lowerStr msg) "quota" then .rateLimited
  else .generationFailed

/-- The user-facing error text emitted by the `except Exception` handler. -/
def genFailureDisplay (msg : String) : String :=
  match classifyGenFailure msg with
  | .rateLimited =>
    "❌ Gemini returned a quota/rate-limiting error. Try Flash/Lite, reduce k/context, or check quota."
  | .generationFailed => "❌ Error generating response with Gemini: " ++ msg

/-! Pipeline controller (the `if submit:` block, src/app.py lines 132-192). -/

/-- Outcome of one `model.generate_content` call: a response object, or a
raised exception carrying `str(e)`. -/
inductive GenOutcome where
  | response (resp : GenResponse)
  | raised (msg : String)
deriving DecidableEq

/-- The kind of the single user-facing message a terminal state produces
(`st.warning` / `st.error` / `st.info` / the `st.write` of the answer). -/
inductive MsgKind where
  | warning
  | error
  | info
  | answerText
deriving DecidableEq

/-- Terminal state of one submission. -/
inductive PipelineResult where
  | emptyQuery
  | retrievalFailed (display : String)
  | retrievalEmpty
  | generationFailed (category : GenErrorCategory) (display : String)
  | answerReady (answer : String)
deriving DecidableEq

/-- Which message kind each terminal state surfaces, read off the
`st.warning` / `st.error` / `st.info` / `st.write` calls in the source. -/
def msgKind : PipelineResult → MsgKind
  | .emptyQuery => .warning
  | .retrievalFailed _ => .error
  | .retrievalEmpty => .info
  | .generationFailed _ _ => .error
  | .answerReady _ => .answerText

/-- The sidebar configuration a submission runs under. -/
structure PipelineConfig where
  selectedModel : String
  k : Nat
  maxContextChars : Nat
  apiUrl : String

/-- Observable behaviour of one submission: its terminal state and whether
the retrieval call and the generation call were invoked. -/
structure PipelineRun where
  result : PipelineResult
  fetchInvoked : Bool
  genInvoked : Bool
deriving DecidableEq

/-- The submission handler (src/app.py lines 132-192): stop on a blank
query; call `fetch_similar`; surface its error; stop with an informational
notice on an empty result list; otherwise assemble and trim the context,
build the prompt, and run generation, classifying any raised error. -/
def runPipeline (cfg : PipelineConfig) (query : String)
    (transport : String → Payload → Nat → AttemptOutcome)
    (gen : String → String → GenOutcome) : PipelineRun :=
  if stripStr query = "" then ⟨.emptyQuery, false, false⟩
  else
    match (fetch_similar transport cfg.apiUrl query cfg.k).result with
    | .err msg =>
      ⟨.retrievalFailed ("❌ Error calling Similarity API: " ++ msg), true, false⟩
    | .ok resp =>
      match resp.results.getD [] with
      | [] => ⟨.retrievalEmpty, true, false⟩
      | d :: ds =>
        let context := assembleContext (d :: ds) cfg.maxContextChars
        let full_prompt := build_prompt SYSTEM_PROMPT context query
        match gen cfg.selectedModel full_prompt with
        | .raised msg =>
          ⟨.generationFailed (classifyGenFailure msg) (genFailureDisplay msg), true, true⟩
        | .response r => ⟨.answerReady (final_answer r), true, true⟩

/-! Retrieved-document display (src/app.py lines 196-208). -/

/-- The strings rendered for one document in the "Retrieved Documents"
panel. -/
structure DisplayDoc where
  title : String
  source : String
  page : String
  urlShown : String
  preview : String
  details : String
deriving DecidableEq

/-- The per-document field resolution of the display loop (src/app.py lines
196-208): `doc.get` defaults and `or`-chains exactly as written. -/
def displayDoc (d : RetrievedDocument) : DisplayDoc :=
  { title := d.title.getD "Untitled"
    source := d.source.getD "Unknown"
    page := d.page_label.getD "—"
    urlShown := pyOr d.URL (pyOr d.url "")
    preview := takeChars (pyOr d.document (pyOr d.combined_details "")) 800
    details := takeChars (pyOr d.combined_details (pyOr d.document "")) 1800 }

/-- A document with every field absent. -/
def emptyDoc : RetrievedDocument := {}

/-- A document whose combined-detail text is the truncation notice itself. -/
def noticeDoc : RetrievedDocument := { combined_details := some truncationNotice }

/-- A document with a short combined-detail text. -/
def helloDoc : RetrievedDocument := { combined_details := some "Hello" }

/-- A transport oracle on which every attempt succeeds with an empty result
list. -/
def transportOkEmpty : String → Payload → Nat → AttemptOutcome :=
  fun _ _ _ => .success { results := some [] }

/-- A transport oracle failing on the first two attempts and succeeding on
the third with an empty result list. -/
def transportThirdTry : String → Payload → Nat → AttemptOutcome :=
  fun _ _ i => if i < 2 then .failure .connectionError else .success { results := some [] }

/-- A fixed sidebar configuration (the defaults of src/app.py lines 29-38). -/
def defaultConfig : PipelineConfig :=
  { selectedModel := "gemini-2.5-flash", k := 5, maxContextChars := 12000,
    apiUrl := "https://similarity.example" }

/-- A generation oracle that always raises. -/
def genAlwaysRaises : String → String → GenOutcome :=
  fun _ _ => .raised "boom"

/-- A generation response with a whitespace-only top-level text and one
candidate carrying one non-empty part. -/
def respWithPart : GenResponse :=
  { text := some " ",
    candidates := some [{ content := some { parts := some [{ text := some "Hi" }] } }] }

/-- A generation response with every attribute absent. -/
def emptyResp : GenResponse := {}

/-! Theorems. -/

/-- `trim_context` returns short text unchanged and truncates long text to
the budget before appending the fixed notice. -/
theorem trim_context_spec (text : String) (limit : Nat) :
    (text.length ≤ limit → trim_context text limit = text) ∧
    (limit < text.length → trim_context text limit = takeChars text limit ++ truncationNotice) := by
  constructor <;> intro h <;> unfold trim_context
  · by_cases hte : text = ""
    · rw [if_pos hte, hte]
    · rw [if_neg hte, if_pos h]
  · have hne : text ≠ "" := by
      intro hteq
      rw [hteq] at h
      simp [String.length] at h
    rw [if_neg hne, if_neg (by omega)]
    rfl

/-- C9: context assembly is total and the empty document list yields the
empty string for every character limit. -/
theorem C9_empty_docs_empty_context (limitChars : Nat) :
    assembleContext [] limitChars = "" := by
  rfl

/-- C9 witness at a concrete limit. -/
theorem C9_empty_docs_empty_context_witness :
    assembleContext [] 12000 = "" :=
  C9_empty_docs_empty_context 12000

/-- C1 (amended): the assembled context is the per-document best-available
text (combined-detail text preferred, full body as fallback) joined in list
order with a blank-line separator; when the joined text fits the budget it
is returned unchanged (no truncation notice is appended, though the joined
text may itself already contain one), and when it exceeds the budget the
output is exactly its first `limitChars` characters followed by the fixed
truncation notice. -/
theorem C1_assemble_join_and_truncate (docs : List RetrievedDocument) (limitChars : Nat) :
    ((String.intercalate "\n\n" (docs.map bestText)).length ≤ limitChars →
      assembleContext docs limitChars = String.intercalate "\n\n" (docs.map bestText)) ∧
    (limitChars < (String.intercalate "\n\n" (docs.map bestText)).length →
      assembleContext docs limitChars =
        takeChars (String.intercalate "\n\n" (docs.map bestText)) limitChars ++ truncationNotice) :=
  trim_context_spec (String.intercalate "\n\n" (docs.map bestText)) limitChars

/-- C1 witness: both branches applied at concrete inputs. -/
theorem C1_assemble_join_and_truncate_witness :
    assembleContext [helloDoc] 100 = String.intercalate "\n\n" ([helloDoc].map bestText) ∧
    assembleContext [helloDoc] 3 =
      takeChars (String.intercalate "\n\n" ([helloDoc].map bestText)) 3 ++ truncationNotice :=
  ⟨(C1_assemble_join_and_truncate [helloDoc] 100).1 (by decide),
   (C1_assemble_join_and_truncate [helloDoc] 3).2 (by decide)⟩

/-- C1 counterexample: a document whose text is the truncation notice
itself joins to a text within the budget, the output is that joined text
unchanged, yet the output does contain the truncation notice — refuting the
claim's "contains no truncation notice" for the untruncated case. -/
theorem C1_counterexample :
    (String.intercalate "\n\n" ([noticeDoc].map bestText)).length ≤ 100 ∧
    assembleContext [noticeDoc] 100 = String.intercalate "\n\n" ([noticeDoc].map bestText) ∧
    containsTruncationNotice (assembleContext [noticeDoc] 100) = true := by
  decide

/-- C7 (amended): every absent field resolves to an explicit default — the
defaults actually used are "Untitled" for the title, "Unknown" for the
source, "—" for the page label, the empty string for the URL, and the empty
string for the preview, detail and context texts; no field is left absent. -/
theorem C7_display_defaults (d : RetrievedDocument) :
    (d.title = none → (displayDoc d).title = "Untitled") ∧
    (d.source = none → (displayDoc d).source = "Unknown") ∧
    (d.page_label = none → (displayDoc d).page = "—") ∧
    (d.URL = none → d.url = none → (displayDoc d).urlShown = "") ∧
    (d.document = none → d.combined_details = none →
      (displayDoc d).preview = "" ∧ (displayDoc d).details = "" ∧ bestText d = "") := by
  refine ⟨fun h => ?_, fun h => ?_, fun h => ?_, fun h h2 => ?_, fun h h2 => ?_⟩
  · simp [displayDoc, h]
  · simp [displayDoc, h]
  · simp [displayDoc, h]
  · simp [displayDoc, pyOr, h, h2]
  · refine ⟨?_, ?_, ?_⟩ <;> simp [displayDoc, bestText, pyOr, h, h2] <;> decide

/-- C7 witness: the defaults at the all-absent document. -/
theorem C7_display_defaults_witness :
    (displayDoc emptyDoc).title = "Untitled" ∧
    (displayDoc emptyDoc).urlShown = "" ∧
    (displayDoc emptyDoc).preview = "" ∧ (displayDoc emptyDoc).details = "" ∧
    bestText emptyDoc = "" :=
  ⟨(C7_display_defaults emptyDoc).1 rfl,
   (C7_display_defaults emptyDoc).2.2.2.1 rfl rfl,
   (C7_display_defaults emptyDoc).2.2.2.2 rfl rfl⟩

/-- C7 counterexample: at the all-absent document the rendered defaults are
"Untitled", "Unknown" and "—", not the placeholder strings the claim
states ("No title available", "Unknown source", "N/A"), and no
"No details available" default exists — the detail texts default to the
empty string. -/
theorem C7_counterexample :
    (displayDoc emptyDoc).title = "Untitled" ∧ "Untitled" ≠ "No title available" ∧
    (displayDoc emptyDoc).source = "Unknown" ∧ "Unknown" ≠ "Unknown source" ∧
    (displayDoc emptyDoc).page = "—" ∧ "—" ≠ "N/A" ∧
    (displayDoc emptyDoc).details = "" ∧ "" ≠ "No details available" := by
  decide

/-- The inner parts loop of the fallback extraction appends exactly the
non-empty part texts, in order. -/
theorem partsFoldl_eq (ps : List Part) (acc : List String) :
    ps.foldl partStep acc = acc ++ ps.filterMap partFragment := by
  induction ps generalizing acc with
  | nil => simp
  | cons p ps ih =>
    simp only [List.foldl_cons, List.filterMap_cons, partFragment, partStep]
    by_cases h : p.text.getD "" = ""
    · simp only [h, if_pos rfl, ih]
      simp
    · simp only [if_neg h, ih]
      simp [h]

/-- The candidate loop of the fallback extraction appends exactly the
non-empty part texts of all candidates, in encounter order. -/
theorem candsFoldl_eq (cands : List Candidate) (acc : List String) :
    cands.foldl candStep acc =
      acc ++ ((cands.map candidateParts).flatten).filterMap partFragment := by
  induction cands generalizing acc with
  | nil => simp
  | cons c cs ih =>
    simp only [List.foldl_cons, List.map_cons, List.flatten_cons, List.filterMap_append]
    rw [show candStep acc c = acc ++ (candidateParts c).filterMap partFragment by
      unfold candStep candidateParts
      cases c.content with
      | none => simp
      | some content =>
        show List.foldl partStep acc (content.parts.getD []) =
          acc ++ List.filterMap partFragment (content.parts.getD [])
        rw [partsFoldl_eq]]
    rw [ih]
    simp [List.append_assoc]

/-- `collectParts` equals the declarative fragment list. -/
theorem collectParts_eq (resp : GenResponse) :
    collectParts (resp.candidates.getD []) = fragmentsOf resp := by
  unfold collectParts fragmentsOf
  rw [candsFoldl_eq]
  simp

/-- C4: answer normalization prefers the stripped top-level text field;
when that is absent or empty it falls back to the stripped newline-join of
the non-empty part texts in encounter order; when that too is empty it
returns the fixed sentinel — and in every case the result is a non-empty
answer surfaced through the success path, never an error. -/
theorem C4_final_answer_normalization (resp : GenResponse) :
    (stripStr (resp.text.getD "") ≠ "" → final_answer resp = stripStr (resp.text.getD "")) ∧
    (stripStr (resp.text.getD "") = "" →
      stripStr (String.intercalate "\n" (fragmentsOf resp)) ≠ "" →
      final_answer resp = stripStr (String.intercalate "\n" (fragmentsOf resp))) ∧
    (stripStr (resp.text.getD "") = "" →
      stripStr (String.intercalate "\n" (fragmentsOf resp)) = "" →
      final_answer resp = noAnswerSentinel) ∧
    final_answer resp ≠ "" ∧
    msgKind (PipelineResult.answerReady (final_answer resp)) ≠ MsgKind.error := by
  unfold final_answer
  rw [collectParts_eq]
  refine ⟨fun h => ?_, fun h h2 => ?_, fun h h2 => ?_, ?_, ?_⟩
  · rw [if_neg h]
  · rw [if_pos h, if_neg h2]
  · rw [if_pos h, if_pos h2]
  · by_cases h : stripStr (resp.text.getD "") = ""
    · rw [if_pos h]
      by_cases h2 : stripStr (String.intercalate "\n" (fragmentsOf resp)) = ""
      · rw [if_pos h2]
        decide
      · rw [if_neg h2]
        exact h2
    · rw [if_neg h]
      exact h
  · simp [msgKind]

/-- The six-way retrieval-error taxonomy covers every category value. -/
theorem retrievalCategory_mem (c : RetrievalCategory) :
    c ∈ [RetrievalCategory.rateLimited, RetrievalCategory.serverError,
      RetrievalCategory.clientError, RetrievalCategory.timeout,
      RetrievalCategory.networkUnreachable, RetrievalCategory.unknown] := by
  cases c <;> decide

/-- C2: for a non-empty trimmed query and k in [1,10], `fetch_similar`
always returns — either a parsed response or an error message produced by
the exception classifier, whose category is one of the six in the
taxonomy; no unclassified outcome exists. -/
theorem C2_fetch_never_escapes
    (transport : String → Payload → Nat → AttemptOutcome) (url text : String) (top_k : Nat)
    (hq : stripStr text ≠ "") (hk1 : 1 ≤ top_k) (hk2 : top_k ≤ 10) :
    (∃ resp, (fetch_similar transport url text top_k).result = .ok resp) ∨
    (∃ e, (fetch_similar transport url text top_k).result = .err (requests_error_msg e) ∧
      errorCategory e ∈ [RetrievalCategory.rateLimited, RetrievalCategory.serverError,
        RetrievalCategory.clientError, RetrievalCategory.timeout,
        RetrievalCategory.networkUnreachable, RetrievalCategory.unknown]) := by
  rcases h0 : transport url ⟨text, top_k⟩ 0 with j0 | e0
  · exact Or.inl ⟨j0, by simp [fetch_similar, backoffs, fetchLoop, h0]⟩
  · rcases h1 : transport url ⟨text, top_k⟩ 1 with j1 | e1
    · exact Or.inl ⟨j1, by simp [fetch_similar, backoffs, fetchLoop, h0, h1]⟩
    · rcases h2 : transport url ⟨text, top_k⟩ 2 with j2 | e2
      · exact Or.inl ⟨j2, by simp [fetch_similar, backoffs, fetchLoop, h0, h1, h2]⟩
      · exact Or.inr ⟨e2, by simp [fetch_similar, backoffs, fetchLoop, h0, h1, h2],
          retrievalCategory_mem _⟩

/-- C2 witness at a concrete query, k and transport. -/
theorem C2_fetch_never_escapes_witness :
    stripStr "What is the flood response in Sudan?" ≠ "" ∧
    ((∃ resp, (fetch_similar transportOkEmpty "u" "What is the flood response in Sudan?" 3).result =
        .ok resp) ∨
      (∃ e, (fetch_similar transportOkEmpty "u" "What is the flood response in Sudan?" 3).result =
          .err (requests_error_msg e) ∧
        errorCategory e ∈ [RetrievalCategory.rateLimited, RetrievalCategory.serverError,
          RetrievalCategory.clientError, RetrievalCategory.timeout,
          RetrievalCategory.networkUnreachable, RetrievalCategory.unknown])) :=
  ⟨by decide, C2_fetch_never_escapes transportOkEmpty "u" "What is the flood response in Sudan?" 3
    (by decide) (by decide) (by decide)⟩

/-- C3: when the first two attempts fail and the third succeeds,
`fetch_similar` returns that success and has slept exactly the 0.5 and 1.0
time-unit backoff pauses, in that order, before it. -/
theorem C3_third_attempt_success
    (transport : String → Payload → Nat → AttemptOutcome) (url text : String) (top_k : Nat)
    (e0 e1 : RequestException) (resp : SimilarityResponse)
    (h0 : transport url ⟨text, top_k⟩ 0 = .failure e0)
    (h1 : transport url ⟨text, top_k⟩ 1 = .failure e1)
    (h2 : transport url ⟨text, top_k⟩ 2 = .success resp) :
    (fetch_similar transport url text top_k).result = .ok resp ∧
    (fetch_similar transport url text top_k).sleeps = [(0.5 : ℚ), (1.0 : ℚ)] := by
  constructor <;> simp [fetch_similar, backoffs, fetchLoop, h0, h1, h2]

/-- C3 witness on a transport that succeeds only on its third attempt. -/
theorem C3_third_attempt_success_witness :
    (fetch_similar transportThirdTry "u" "q" 3).result = .ok { results := some [] } ∧
    (fetch_similar transportThirdTry "u" "q" 3).sleeps = [(0.5 : ℚ), (1.0 : ℚ)] :=
  C3_third_attempt_success transportThirdTry "u" "q" 3
    .connectionError .connectionError { results := some [] } rfl rfl rfl

/-- C10: every `fetch_similar` call issues at most three attempts, its
sleep sequence is a prefix of [0.5, 1.0], and the listed 2.0 backoff is
never slept. -/
theorem C10_fetch_attempt_and_backoff_bounds
    (transport : String → Payload → Nat → AttemptOutcome) (url text : String) (top_k : Nat) :
    (fetch_similar transport url text top_k).attemptsMade ≤ 3 ∧
    ((fetch_similar transport url text top_k).sleeps = [] ∨
      (fetch_similar transport url text top_k).sleeps = [(0.5 : ℚ)] ∨
      (fetch_similar transport url text top_k).sleeps = [(0.5 : ℚ), (1.0 : ℚ)]) ∧
    (fetch_similar transport url text top_k).sleeps.contains (2.0 : ℚ) = false := by
  rcases h0 : transport url ⟨text, top_k⟩ 0 with j0 | e0 <;>
    rcases h1 : transport url ⟨text, top_k⟩ 1 with j1 | e1 <;>
      rcases h2 : transport url ⟨text, top_k⟩ 2 with j2 | e2 <;>
        simp [fetch_similar, backoffs, fetchLoop, h0, h1, h2] <;> norm_num

/-- C10 witness on a transport that always fails. -/
theorem C10_fetch_attempt_and_backoff_bounds_witness :
    (fetch_similar (fun _ _ _ => .failure .readTimeout) "u" "q" 3).attemptsMade ≤ 3 ∧
    ((fetch_similar (fun _ _ _ => .failure .readTimeout) "u" "q" 3).sleeps = [] ∨
      (fetch_similar (fun _ _ _ => .failure .readTimeout) "u" "q" 3).sleeps = [(0.5 : ℚ)] ∨
      (fetch_similar (fun _ _ _ => .failure .readTimeout) "u" "q" 3).sleeps =
        [(0.5 : ℚ), (1.0 : ℚ)]) ∧
    (fetch_similar (fun _ _ _ => .failure .readTimeout) "u" "q" 3).sleeps.contains (2.0 : ℚ) =
      false :=
  C10_fetch_attempt_and_backoff_bounds (fun _ _ _ => .failure .readTimeout) "u" "q" 3

/-- C6: a successful retrieval with zero documents ends the submission in
the RetrievalEmpty state, whose message is informational and not an error,
and the generation call is never invoked. -/
theorem C6_empty_retrieval_halts
    (cfg : PipelineConfig) (query : String)
    (transport : String → Payload → Nat → AttemptOutcome)
    (gen : String → String → GenOutcome) (resp : SimilarityResponse)
    (hq : stripStr query ≠ "")
    (hok : (fetch_similar transport cfg.apiUrl query cfg.k).result = .ok resp)
    (hempty : resp.results.getD [] = []) :
    runPipeline cfg query transport gen =
      { result := .retrievalEmpty, fetchInvoked := true, genInvoked := false } ∧
    msgKind PipelineResult.retrievalEmpty = MsgKind.info ∧
    MsgKind.info ≠ MsgKind.error := by
  refine ⟨?_, rfl, by decide⟩
  unfold runPipeline
  rw [if_neg hq, hok]
  simp [hempty]

/-- C6 witness on a transport whose response has an empty result list. -/
theorem C6_empty_retrieval_halts_witness :
    runPipeline defaultConfig "hi" transportOkEmpty genAlwaysRaises =
      { result := .retrievalEmpty, fetchInvoked := true, genInvoked := false } :=
  (C6_empty_retrieval_halts defaultConfig "hi" transportOkEmpty genAlwaysRaises
    { results := some [] } (by decide) (by decide) rfl).1

/-- C8: a query that is empty after trimming stops the submission before
the retrieval call: `fetch_similar` is never invoked. -/
theorem C8_blank_query_skips_retrieval
    (cfg : PipelineConfig) (query : String)
    (transport : String → Payload → Nat → AttemptOutcome)
    (gen : String → String → GenOutcome)
    (hq : stripStr query = "") :
    runPipeline cfg query transport gen =
      { result := .emptyQuery, fetchInvoked := false, genInvoked := false } ∧
    msgKind PipelineResult.emptyQuery = MsgKind.warning := by
  refine ⟨?_, rfl⟩
  unfold runPipeline
  rw [if_pos hq]

/-- C8 witness at a whitespace-only query. -/
theorem C8_blank_query_skips_retrieval_witness :
    runPipeline defaultConfig "   " transportOkEmpty genAlwaysRaises =
      { result := .emptyQuery, fetchInvoked := false, genInvoked := false } :=
  (C8_blank_query_skips_retrieval defaultConfig "   " transportOkEmpty genAlwaysRaises
    (by decide)).1

theorem strContainsB_append_left (a b : String) : strContainsB (a ++ b) b = true := by
  unfold strContainsB
  rw [List.any_eq_true]
  have hd : (a ++ b).data = a.data ++ b.data := by
    cases a
    cases b
    rfl
  refine ⟨a.data.length, ?_, ?_⟩
  · rw [List.mem_range, hd, List.length_append]
    omega
  · rw [hd, List.drop_left, List.take_length]
    simp

/-- C5: a generation failure is classified rate-limited exactly when its
message contains "429" or, lowercased, contains "quota"; otherwise it is a
plain generation failure whose displayed text retains the raw message. -/
theorem C5_generation_error_classification (msg : String) :
    (classifyGenFailure msg = GenErrorCategory.rateLimited ↔
      (strContainsB msg "429" = true ∨ strContainsB (lowerStr msg) "quota" = true)) ∧
    (classifyGenFailure msg = GenErrorCategory.generationFailed →
      strContainsB (genFailureDisplay msg) msg = true) := by
  constructor
  · rw [← Bool.or_eq_true]
    unfold classifyGenFailure
    split
    · next hcond => simp [hcond]
    · next hcond => simp [hcond]
  · intro h
    unfold genFailureDisplay
    rw [h]
    exact strContainsB_append_left "❌ Error generating response with Gemini: " msg

/-- C5 witness: a quota message is rate-limited; an unrelated message is a
generation failure whose display contains it. -/
theorem C5_generation_error_classification_witness :
    classifyGenFailure "Quota exceeded for project" = GenErrorCategory.rateLimited ∧
    strContainsB (genFailureDisplay "socket closed") "socket closed" = true :=
  ⟨(C5_generation_error_classification "Quota exceeded for project").1.mpr
      (Or.inr (by decide)),
   (C5_generation_error_classification "socket closed").2 (by decide)⟩

/-- C4 witness: a response with an empty top-level text and one non-empty
part, and the all-empty response yielding the sentinel. -/
theorem C4_final_answer_normalization_witness :
    final_answer respWithPart = stripStr (String.intercalate "\n" (fragmentsOf respWithPart)) ∧
    final_answer emptyResp = noAnswerSentinel :=
  ⟨(C4_final_answer_normalization respWithPart).2.1 (by decide) (by decide),
   (C4_final_answer_normalization emptyResp).2.2.1 (by decide) (by decide)⟩

end Owl
